import Mathlib

/-!
Shallow embedding of `src/HW_2_BatchProcessing.py`, a PySpark batch job over
taxi trip records.  Dataframes are modelled as Lean lists of structures;
numeric columns are rationals; nullable columns (location ids, timestamps,
zone/borough strings) are `Option`-valued.  Spark's `orderBy` is modelled by
Mathlib's stable `insertionSort`; `first()` on an empty frame yields `none`,
and Python's subscripting of `None` is modelled as an `Except.error`
(a `TypeError` at run time).
-/

/-- One taxi trip record, with the input columns required by the pipeline
(`PULocationID`, `DOLocationID`, the pickup/dropoff timestamps, and the five
numeric columns).  Timestamps are seconds since an epoch and may be null;
location ids may be null. -/
structure Trip where
  PULocationID : Option Int
  DOLocationID : Option Int
  pickup_datetime : Option Nat
  dropoff_datetime : Option Nat
  fare_amount : ℚ
  total_amount : ℚ
  trip_distance : ℚ
  passenger_count : ℚ
  tip_amount : ℚ
deriving DecidableEq

/-- One row of the zone lookup table: `LocationID`, `Zone`, `Borough`. -/
structure LookupRow where
  LocationID : Int
  Zone : String
  Borough : String
deriving DecidableEq

/-- A trip record after `join_look_up_with_cities`: the original trip plus the
four added nullable columns `PU_Zone`, `PU_Borough`, `DO_Zone`, `DO_Borough`. -/
structure EnrichedTrip where
  trip : Trip
  PU_Zone : Option String
  PU_Borough : Option String
  DO_Zone : Option String
  DO_Borough : Option String
deriving DecidableEq

/-- Spark equality `key == r.LocationID`: a null key matches nothing. -/
def keyMatches (key : Option Int) (r : LookupRow) : Bool :=
  match key with
  | none => false
  | some k => k = r.LocationID

/-- The lookup rows matching a (nullable) location id. -/
def matchRows (lookup : List LookupRow) (key : Option Int) : List LookupRow :=
  lookup.filter (keyMatches key)

/-- One side of a left-outer join against the lookup table: the
(zone, borough) pairs contributed for a given key — a single all-null pair
when the key has no match, otherwise one pair per matching lookup row. -/
def leftMatch (lookup : List LookupRow) (key : Option Int) :
    List (Option String × Option String) :=
  match matchRows lookup key with
  | [] => [(none, none)]
  | ms => ms.map (fun r => (some r.Zone, some r.Borough))

/-- `join_look_up_with_cities`: two sequential left-outer joins of the trip
frame against the lookup table, on `PULocationID` and then on `DOLocationID`,
adding `PU_Zone`/`PU_Borough` and `DO_Zone`/`DO_Borough`. -/
def join_look_up_with_cities (df : List Trip) (lookup : List LookupRow) :
    List EnrichedTrip :=
  (df.flatMap (fun t =>
      (leftMatch lookup t.PULocationID).map (fun zb => (t, zb.1, zb.2)))).flatMap
    (fun p =>
      (leftMatch lookup p.1.DOLocationID).map
        (fun zb => ⟨p.1, p.2.1, p.2.2, zb.1, zb.2⟩))

/-- The filter predicate of `clean_data`:
`fare_amount > 0 AND total_amount > 0 AND trip_distance > 0 AND
trip_distance < 1000 AND passenger_count > 0`. -/
def rowValid (e : EnrichedTrip) : Bool :=
  decide (0 < e.trip.fare_amount) && decide (0 < e.trip.total_amount) &&
  decide (0 < e.trip.trip_distance) && decide (e.trip.trip_distance < 1000) &&
  decide (0 < e.trip.passenger_count)

/-- `clean_data`: keep exactly the rows passing `rowValid`. -/
def clean_data (df : List EnrichedTrip) : List EnrichedTrip :=
  df.filter rowValid

/-- `orderBy(col(k).desc())` modelled as a stable insertion sort placing
larger keys first. -/
def descRel {α β : Type} [LinearOrder β] (key : α → β) (a b : α) : Prop :=
  key b ≤ key a

instance descRelDecidable {α β : Type} [LinearOrder β] (key : α → β) :
    DecidableRel (descRel key) :=
  fun a b => inferInstanceAs (Decidable (key b ≤ key a))

instance descRelTotal {α β : Type} [LinearOrder β] (key : α → β) :
    IsTotal α (descRel key) :=
  ⟨fun a b => le_total (key b) (key a)⟩

instance descRelTrans {α β : Type} [LinearOrder β] (key : α → β) :
    IsTrans α (descRel key) :=
  ⟨fun _ _ _ h1 h2 => le_trans h2 h1⟩

/-- `orderBy(col(k))` ascending, as a stable insertion sort. -/
def ascRel {α β : Type} [LinearOrder β] (key : α → β) (a b : α) : Prop :=
  key a ≤ key b

instance ascRelDecidable {α β : Type} [LinearOrder β] (key : α → β) :
    DecidableRel (ascRel key) :=
  fun a b => inferInstanceAs (Decidable (key a ≤ key b))

instance ascRelTotal {α β : Type} [LinearOrder β] (key : α → β) :
    IsTotal α (ascRel key) :=
  ⟨fun a b => le_total (key a) (key b)⟩

instance ascRelTrans {α β : Type} [LinearOrder β] (key : α → β) :
    IsTrans α (ascRel key) :=
  ⟨fun _ _ _ h1 h2 => le_trans h1 h2⟩

/-- Sort a frame so that the given key is non-increasing. -/
def orderByDesc {α β : Type} [LinearOrder β] (key : α → β) (df : List α) :
    List α :=
  List.insertionSort (descRel key) df

/-- Sort a frame so that the given key is non-decreasing. -/
def orderByAsc {α β : Type} [LinearOrder β] (key : α → β) (df : List α) :
    List α :=
  List.insertionSort (ascRel key) df

/-- Python subscripting `row[field]` where `row` may be `None` (the value of
`.first()` on an empty frame): subscripting `None` raises a `TypeError`. -/
def pySubscript {α β : Type} (row : Option α) (f : α → β) : Except String β :=
  match row with
  | none => Except.error "TypeError: NoneType object is not subscriptable"
  | some r => Except.ok (f r)

/-- `get_most_expensive_route`: order by `fare_amount` descending, take the
first row, and read its `PU_Zone`, `DO_Zone` and `fare_amount` fields (the
field reads fail on an empty frame, where `first()` is `None`). -/
def get_most_expensive_route (df : List EnrichedTrip) :
    Except String (Option String × Option String × ℚ) :=
  let firstRow := (orderByDesc (fun e => e.trip.fare_amount) df).head?
  do
    let pu ← pySubscript firstRow (fun e => e.PU_Zone)
    let dz ← pySubscript firstRow (fun e => e.DO_Zone)
    let fare ← pySubscript firstRow (fun e => e.trip.fare_amount)
    return (pu, dz, fare)

/-- `get_longest_trips`: order by `trip_distance` descending, take the first
row, and read its `PU_Zone`, `DO_Zone` and `trip_distance` fields. -/
def get_longest_trips (df : List EnrichedTrip) :
    Except String (Option String × Option String × ℚ) :=
  let firstRow := (orderByDesc (fun e => e.trip.trip_distance) df).head?
  do
    let pu ← pySubscript firstRow (fun e => e.PU_Zone)
    let dz ← pySubscript firstRow (fun e => e.DO_Zone)
    let dist ← pySubscript firstRow (fun e => e.trip.trip_distance)
    return (pu, dz, dist)

/-- Spark `groupBy(k).count()`: one `(key, count)` row per distinct key. -/
def groupByCount {α κ : Type} [DecidableEq κ] (key : α → κ) (df : List α) :
    List (κ × Nat) :=
  (df.map key).dedup.map (fun k => (k, (df.filter (fun a => key a = k)).length))

/-- `get_top_5_busiest_area`: group by `PU_Zone`, count, order by count
descending, and keep the first 5 rows. -/
def get_top_5_busiest_area (df : List EnrichedTrip) :
    List (Option String × Nat) :=
  (orderByDesc (fun p => p.2) (groupByCount (fun e => e.PU_Zone) df)).take 5

/-- Spark `hour(col)`: the hour-of-day 0–23 of a timestamp in seconds;
`hour(NULL)` is `NULL`. -/
def hourOf (ts : Option Nat) : Option Nat :=
  ts.map (fun t => t / 3600 % 24)

/-- Rank used by `orderBy("Hour")` on the nullable computed hour column:
ascending, with nulls first (Spark's default null ordering for ascending). -/
def hourRank (h : Option Nat) : WithBot Nat :=
  match h with
  | none => ⊥
  | some n => (n : WithBot Nat)

/-- One side of the hourly count query: group by `hour(col)`, count, and
order by the hour ascending. -/
def hourlyCounts (col : Trip → Option Nat) (df : List EnrichedTrip) :
    List (Option Nat × Nat) :=
  orderByAsc (fun p => hourRank p.1)
    (groupByCount (fun e => hourOf (col e.trip)) df)

/-- `get_hourly_pickup_dropoff_counts`: group by `hour(pickup_col)` and by
`hour(dropoff_col)`, count each group, and order each result by the hour
ascending.  The timestamp column is supplied by the caller as an accessor. -/
def get_hourly_pickup_dropoff_counts (pickupCol dropoffCol : Trip → Option Nat)
    (df : List EnrichedTrip) :
    List (Option Nat × Nat) × List (Option Nat × Nat) :=
  (hourlyCounts pickupCol df, hourlyCounts dropoffCol df)

/-- Value of a named numeric column of an enriched trip. -/
def colVal (c : String) (e : EnrichedTrip) : ℚ :=
  if c = "trip_distance" then e.trip.trip_distance
  else if c = "fare_amount" then e.trip.fare_amount
  else if c = "total_amount" then e.trip.total_amount
  else if c = "passenger_count" then e.trip.passenger_count
  else if c = "tip_amount" then e.trip.tip_amount
  else 0

/-- Mean of a numeric column over a frame (0 on an empty frame). -/
noncomputable def colMean (f : EnrichedTrip → ℚ) (df : List EnrichedTrip) : ℝ :=
  (df.map (fun e => ((f e : ℚ) : ℝ))).sum / df.length

/-- Centered co-moment `Σ (f e − mean f) * (g e − mean g)` of two columns;
`comoment f f` is the (unnormalised) variance of `f`. -/
noncomputable def comoment (f g : EnrichedTrip → ℚ) (df : List EnrichedTrip) :
    ℝ :=
  (df.map (fun e =>
    (((f e : ℚ) : ℝ) - colMean f df) * (((g e : ℚ) : ℝ) - colMean g df))).sum

/-- Pearson correlation coefficient of two columns, as computed by Spark's
`df.stat.corr`: the co-moment divided by the product of the root variances;
undefined (`none`, a NaN at run time) when either column has zero variance. -/
noncomputable def pearson (f g : EnrichedTrip → ℚ) (df : List EnrichedTrip) :
    Option ℝ :=
  if comoment f f df = 0 ∨ comoment g g df = 0 then none
  else
    some (comoment f g df /
      (Real.sqrt (comoment f f df) * Real.sqrt (comoment g g df)))

/-- `df.stat.corr(c1, c2)` on named columns. -/
noncomputable def stat_corr (c1 c2 : String) (df : List EnrichedTrip) :
    Option ℝ :=
  pearson (colVal c1) (colVal c2) df

/-- The numeric columns correlated with `tip_amount`. -/
def numeric_columns : List String :=
  ["trip_distance", "fare_amount", "total_amount", "passenger_count"]

/-- `calculate_tip_correlations`: the mapping from each numeric column name to
its Pearson correlation with `tip_amount`. -/
noncomputable def calculate_tip_correlations (df : List EnrichedTrip) :
    List (String × Option ℝ) :=
  numeric_columns.map (fun c => (c, stat_corr "tip_amount" c df))

/-- Schema of a dataframe, as its ordered list of column names. -/
def renameCol (old new : String) (cols : List String) : List String :=
  cols.map (fun c => if c = old then new else c)

/-- `drop(name)` removes every column with that name from the schema. -/
def dropCol (name : String) (cols : List String) : List String :=
  cols.filter (fun c => c ≠ name)

/-- Schema of `join_look_up_with_cities`, column by column: a join
concatenates the two schemas, `withColumnRenamed` renames, `drop` removes. -/
def joinLookupCols (dfCols lookupCols : List String) : List String :=
  dropCol "DO_LocationID"
    (renameCol "Borough" "DO_Borough"
      (renameCol "Zone" "DO_Zone"
        ((dropCol "PU_LocationID"
          (renameCol "Borough" "PU_Borough"
            (renameCol "Zone" "PU_Zone"
              (dfCols ++ renameCol "LocationID" "PU_LocationID" lookupCols)))) ++
         renameCol "LocationID" "DO_LocationID" lookupCols)))

/-! Sample data used by the concrete witnesses below. -/

/-- A valid enriched trip: fare 10, distance 2, pickup hour 1. -/
def wE1 : EnrichedTrip :=
  ⟨⟨some 1, some 2, some 3600, some 7200, 10, 11, 2, 1, 0⟩,
    some "A", some "AB", some "A2", some "AB2"⟩

/-- A valid enriched trip: fare 50 (the maximal fare of the sample). -/
def wE2 : EnrichedTrip :=
  ⟨⟨some 1, some 2, some 3600, some 7200, 50, 55, 3, 2, 1⟩,
    some "B", some "BB", some "C", some "CB"⟩

/-- A valid enriched trip: fare 5, distance 800. -/
def wE3 : EnrichedTrip :=
  ⟨⟨some 1, some 2, some 7200, some 10800, 5, 6, 800, 1, 2⟩,
    some "A", some "AB", some "D", some "DB"⟩

/-- An enriched trip with `trip_distance = 1000`, excluded by the cleaner. -/
def wE1000 : EnrichedTrip :=
  ⟨⟨some 1, some 2, some 3600, some 7200, 10, 11, 1000, 1, 0⟩,
    none, none, none, none⟩

/-- A trip passing the cleaner whose pickup timestamp is null. -/
def wENullTs : EnrichedTrip :=
  ⟨⟨some 1, some 2, none, some 3600, 10, 11, 2, 1, 0⟩,
    some "A", none, none, none⟩

/-- The three-record sample set with fares [10, 50, 5]. -/
def wDf : List EnrichedTrip := [wE1, wE2, wE3]

/-- A two-record sample set whose `tip_amount` column has nonzero variance. -/
def wDf9 : List EnrichedTrip := [wE1, wE2]

/-- A trip whose pickup id (1) is in the sample lookup and whose dropoff id
(9) is not. -/
def wTripM : Trip := ⟨some 1, some 9, some 0, some 0, 1, 1, 1, 1, 0⟩

/-- A sample lookup table with unique location ids 1 and 2. -/
def wLookup : List LookupRow := [⟨1, "ZA", "BA"⟩, ⟨2, "ZB", "BB"⟩]

/-! Theorems. -/

/-- **C1** For every input record set, every record in the output of the
Cleaner satisfies `fare_amount > 0`, `total_amount > 0`,
`0 < trip_distance < 1000` and `passenger_count > 0` simultaneously; a record
with `trip_distance` exactly 1000 or `passenger_count` 0 is excluded; and the
output is a sublist of the input (a subset in original order, with no record
modified). -/
theorem C1_cleaner_output_valid_subset (df : List EnrichedTrip) :
    (clean_data df).Sublist df ∧
    (∀ e ∈ clean_data df,
      0 < e.trip.fare_amount ∧ 0 < e.trip.total_amount ∧
      0 < e.trip.trip_distance ∧ e.trip.trip_distance < 1000 ∧
      0 < e.trip.passenger_count) ∧
    (∀ e ∈ df, e.trip.trip_distance = 1000 ∨ e.trip.passenger_count = 0 →
      e ∉ clean_data df) := by
  refine ⟨List.filter_sublist df, ?_, ?_⟩
  · intro e he
    have h := List.of_mem_filter he
    simp only [rowValid, Bool.and_eq_true, decide_eq_true_eq] at h
    exact ⟨h.1.1.1.1, h.1.1.1.2, h.1.1.2, h.1.2, h.2⟩
  · intro e _ hbad hmem
    have h := List.of_mem_filter hmem
    simp only [rowValid, Bool.and_eq_true, decide_eq_true_eq] at h
    rcases hbad with h1000 | h0
    · exact absurd h.1.2 (by rw [h1000]; exact lt_irrefl 1000)
    · exact absurd h.2 (by rw [h0]; exact lt_irrefl 0)

/-- Witness for C1: the record with `trip_distance = 1000` is excluded from
the cleaned output of the sample set containing it. -/
theorem C1_cleaner_output_valid_subset_witness :
    wE1000 ∉ clean_data [wE1, wE1000] :=
  (C1_cleaner_output_valid_subset [wE1, wE1000]).2.2 wE1000 (by decide)
    (Or.inl (by decide))

/-- **C7** The Cleaner is idempotent: re-applying `clean_data` to an
already-cleaned set yields the same set. -/
theorem C7_cleaner_idempotent (df : List EnrichedTrip) :
    clean_data (clean_data df) = clean_data df := by
  simp [clean_data, List.filter_filter]

/-- **C3** (corrected claim refuted): on the empty record set both
single-best-record aggregators DO raise an error — `first()` yields `None`
and the subsequent field subscript raises a `TypeError`. -/
theorem C3_counterexample :
    get_most_expensive_route [] =
      Except.error "TypeError: NoneType object is not subscriptable" ∧
    get_longest_trips [] =
      Except.error "TypeError: NoneType object is not subscriptable" :=
  ⟨rfl, rfl⟩

/-- **C3 (amended)** For the empty cleaned record set, the ranking query
itself yields an empty result (`first()` is `None`, no error from the
ranking), but each single-best-record aggregator then raises a `TypeError`
when it subscripts the `None` row; so running it on empty input raises an
error. -/
theorem C3_amended_empty_input_raises :
    (orderByDesc (fun e => e.trip.fare_amount) ([] : List EnrichedTrip)).head?
        = none ∧
    (orderByDesc (fun e => e.trip.trip_distance) ([] : List EnrichedTrip)).head?
        = none ∧
    get_most_expensive_route [] =
      Except.error "TypeError: NoneType object is not subscriptable" ∧
    get_longest_trips [] =
      Except.error "TypeError: NoneType object is not subscriptable" :=
  ⟨rfl, rfl, rfl, rfl⟩

/-- **C8** (corrected claim refuted): with the real lookup schema
`[LocationID, Borough, Zone, service_zone]`, the extra lookup column
`service_zone` DOES appear in the join result (twice), although it is
neither an input column nor one of the four added columns. -/
theorem C8_counterexample :
    "service_zone" ∈
      joinLookupCols ["PULocationID", "DOLocationID"]
        ["LocationID", "Borough", "Zone", "service_zone"] ∧
    "service_zone" ∉
      (["PULocationID", "DOLocationID"] ++
        ["PU_Zone", "PU_Borough", "DO_Zone", "DO_Borough"]) := by
  decide

/-- **C8 (amended)** When the lookup schema is exactly
`[LocationID, Borough, Zone]` and the trip schema avoids the names the join
manufactures (`Zone`, `Borough`, `PU_LocationID`, `DO_LocationID`), the join
result's columns are exactly the input columns followed by `PU_Borough`,
`PU_Zone`, `DO_Borough`, `DO_Zone`; the temporary join key columns are not
retained.  (The unamended claim fails because extra lookup columns such as
`service_zone` are carried through, not dropped.) -/
theorem renameCol_append (old new : String) (l1 l2 : List String) :
    renameCol old new (l1 ++ l2) =
      renameCol old new l1 ++ renameCol old new l2 :=
  List.map_append _ _ _

theorem dropCol_append (n : String) (l1 l2 : List String) :
    dropCol n (l1 ++ l2) = dropCol n l1 ++ dropCol n l2 :=
  List.filter_append _ _

theorem renameCol_eq_self (old new : String) (l : List String) (h : old ∉ l) :
    renameCol old new l = l := by
  induction l with
  | nil => rfl
  | cons a l ih =>
    simp only [List.mem_cons, not_or] at h
    have ha : a ≠ old := fun hEq => h.1 hEq.symm
    have ht := ih h.2
    unfold renameCol at ht ⊢
    simp [if_neg ha, ht]

theorem dropCol_eq_self (n : String) (l : List String) (h : n ∉ l) :
    dropCol n l = l := by
  induction l with
  | nil => rfl
  | cons a l ih =>
    simp only [List.mem_cons, not_or] at h
    have ha : a ≠ n := fun hEq => h.1 hEq.symm
    have ht := ih h.2
    unfold dropCol at ht ⊢
    simp [List.filter_cons, ha, ht]
    exact fun b hb hEq => h.2 (hEq ▸ hb)

theorem C8_amended_join_schema (dfCols : List String)
    (h : ∀ c ∈ dfCols,
      c ≠ "Zone" ∧ c ≠ "Borough" ∧ c ≠ "PU_LocationID" ∧ c ≠ "DO_LocationID") :
    joinLookupCols dfCols ["LocationID", "Borough", "Zone"] =
      dfCols ++ ["PU_Borough", "PU_Zone", "DO_Borough", "DO_Zone"] := by
  have hz : "Zone" ∉ dfCols := fun hm => (h _ hm).1 rfl
  have hb : "Borough" ∉ dfCols := fun hm => (h _ hm).2.1 rfl
  have hpu : "PU_LocationID" ∉ dfCols := fun hm => (h _ hm).2.2.1 rfl
  have hdo : "DO_LocationID" ∉ dfCols := fun hm => (h _ hm).2.2.2 rfl
  unfold joinLookupCols
  simp only [renameCol_append, dropCol_append]
  rw [renameCol_eq_self "Zone" "PU_Zone" dfCols hz]
  rw [renameCol_eq_self "Borough" "PU_Borough" dfCols hb]
  rw [dropCol_eq_self "PU_LocationID" dfCols hpu]
  rw [renameCol_eq_self "Zone" "DO_Zone" dfCols hz]
  rw [renameCol_eq_self "Borough" "DO_Borough" dfCols hb]
  rw [dropCol_eq_self "DO_LocationID" dfCols hdo]
  rw [show dropCol "DO_LocationID"
        (renameCol "Borough" "DO_Borough"
          (renameCol "Zone" "DO_Zone"
            (dropCol "PU_LocationID"
              (renameCol "Borough" "PU_Borough"
                (renameCol "Zone" "PU_Zone"
                  (renameCol "LocationID" "PU_LocationID"
                    ["LocationID", "Borough", "Zone"]))))))
        = ["PU_Borough", "PU_Zone"] by decide]
  rw [show dropCol "DO_LocationID"
        (renameCol "Borough" "DO_Borough"
          (renameCol "Zone" "DO_Zone"
            (renameCol "LocationID" "DO_LocationID"
              ["LocationID", "Borough", "Zone"])))
        = ["DO_Borough", "DO_Zone"] by decide]
  simp

/-- Witness for C8 (amended): the concrete trip schema
`[PULocationID, DOLocationID]` joined with the clean lookup schema. -/
theorem C8_amended_join_schema_witness :
    joinLookupCols ["PULocationID", "DOLocationID"]
        ["LocationID", "Borough", "Zone"] =
      ["PULocationID", "DOLocationID"] ++
        ["PU_Borough", "PU_Zone", "DO_Borough", "DO_Zone"] :=
  C8_amended_join_schema ["PULocationID", "DOLocationID"] (by decide)

theorem leftMatch_ne_nil (lookup : List LookupRow) (key : Option Int) :
    leftMatch lookup key ≠ [] := by
  unfold leftMatch
  cases matchRows lookup key with
  | nil => simp
  | cons a ms => simp

theorem leftMatch_of_no_match (lookup : List LookupRow) (key : Option Int)
    (h : matchRows lookup key = []) : leftMatch lookup key = [(none, none)] := by
  unfold leftMatch
  rw [h]

theorem matchRows_length_le_one (lookup : List LookupRow) (key : Option Int)
    (h : (lookup.map LookupRow.LocationID).Nodup) :
    (matchRows lookup key).length ≤ 1 := by
  induction lookup with
  | nil => simp [matchRows]
  | cons r rs ih =>
    rw [List.map_cons, List.nodup_cons] at h
    unfold matchRows
    rw [List.filter_cons]
    by_cases hk : keyMatches key r = true
    · rw [if_pos hk]
      have hnil : List.filter (keyMatches key) rs = [] := by
        rw [List.filter_eq_nil_iff]
        intro a ha hka
        cases key with
        | none => simp [keyMatches] at hk
        | some k =>
          simp only [keyMatches, decide_eq_true_eq] at hk hka
          exact h.1 (List.mem_map.mpr ⟨a, ha, by rw [← hka, ← hk]⟩)
      simp [hnil]
    · rw [if_neg hk]
      simpa [matchRows] using ih h.2

theorem leftMatch_length_one (lookup : List LookupRow) (key : Option Int)
    (h : (lookup.map LookupRow.LocationID).Nodup) :
    (leftMatch lookup key).length = 1 := by
  have hle := matchRows_length_le_one lookup key h
  unfold leftMatch
  cases hm : matchRows lookup key with
  | nil => rfl
  | cons a ms =>
    rw [hm, List.length_cons] at hle
    rw [List.length_map, List.length_cons]
    omega

theorem flatMap_length_one {α β : Type} (l : List α) (f : α → List β)
    (h : ∀ a ∈ l, (f a).length = 1) : (l.flatMap f).length = l.length := by
  induction l with
  | nil => rfl
  | cons a t ih =>
    rw [List.flatMap_cons, List.length_append, h a (List.mem_cons_self a t),
      ih (fun b hb => h b (List.mem_cons_of_mem a hb)), List.length_cons]
    omega

/-- **C2** For every trip record set and lookup with unique location ids, the
join output has exactly as many records as the input; for every lookup,
every input record is preserved; and a record whose pickup or dropoff id
matches no lookup row gets null zone/borough fields on that side. -/
theorem C2_lookup_join_left_outer (df : List Trip) (lookup : List LookupRow) :
    ((lookup.map LookupRow.LocationID).Nodup →
      (join_look_up_with_cities df lookup).length = df.length) ∧
    (∀ t ∈ df, ∃ e ∈ join_look_up_with_cities df lookup, e.trip = t) ∧
    (∀ e ∈ join_look_up_with_cities df lookup,
      ((∀ r ∈ lookup, keyMatches e.trip.PULocationID r = false) →
        e.PU_Zone = none ∧ e.PU_Borough = none) ∧
      ((∀ r ∈ lookup, keyMatches e.trip.DOLocationID r = false) →
        e.DO_Zone = none ∧ e.DO_Borough = none)) := by
  refine ⟨?_, ?_, ?_⟩
  · intro h
    unfold join_look_up_with_cities
    rw [flatMap_length_one _ _
        (fun p _ => by rw [List.length_map, leftMatch_length_one lookup _ h]),
      flatMap_length_one _ _
        (fun t _ => by rw [List.length_map, leftMatch_length_one lookup _ h])]
  · intro t ht
    obtain ⟨zb1, hzb1⟩ :=
      List.exists_mem_of_ne_nil _ (leftMatch_ne_nil lookup t.PULocationID)
    obtain ⟨zb2, hzb2⟩ :=
      List.exists_mem_of_ne_nil _ (leftMatch_ne_nil lookup t.DOLocationID)
    refine ⟨⟨t, zb1.1, zb1.2, zb2.1, zb2.2⟩, ?_, rfl⟩
    unfold join_look_up_with_cities
    exact List.mem_flatMap.mpr
      ⟨(t, zb1.1, zb1.2),
        List.mem_flatMap.mpr ⟨t, ht, List.mem_map.mpr ⟨zb1, hzb1, rfl⟩⟩,
        List.mem_map.mpr ⟨zb2, hzb2, rfl⟩⟩
  · intro e he
    unfold join_look_up_with_cities at he
    obtain ⟨p, hp, he2⟩ := List.mem_flatMap.mp he
    obtain ⟨zb2, hzb2, hEq⟩ := List.mem_map.mp he2
    obtain ⟨t, _, hp2⟩ := List.mem_flatMap.mp hp
    obtain ⟨zb1, hzb1, hpEq⟩ := List.mem_map.mp hp2
    subst hEq
    subst hpEq
    constructor
    · intro hnom
      have hmr : matchRows lookup t.PULocationID = [] :=
        List.filter_eq_nil_iff.mpr
          (fun r hr => by simp [hnom r hr])
      rw [leftMatch_of_no_match _ _ hmr] at hzb1
      rw [List.mem_singleton] at hzb1
      subst hzb1
      exact ⟨rfl, rfl⟩
    · intro hnom
      have hmr : matchRows lookup t.DOLocationID = [] :=
        List.filter_eq_nil_iff.mpr
          (fun r hr => by simp [hnom r hr])
      rw [leftMatch_of_no_match _ _ hmr] at hzb2
      rw [List.mem_singleton] at hzb2
      subst hzb2
      exact ⟨rfl, rfl⟩

/-- Witness for C2: on the sample trip (pickup id matched, dropoff id
unmatched) and the two-row unique lookup, the join preserves cardinality and
the unmatched dropoff side is null. -/
theorem C2_lookup_join_left_outer_witness :
    (join_look_up_with_cities [wTripM] wLookup).length = [wTripM].length :=
  (C2_lookup_join_left_outer [wTripM] wLookup).1 (by decide)

/-- **C4** For every non-empty record set, `get_most_expensive_route` returns
the `(PU_Zone, DO_Zone, fare_amount)` triple of a record of the set whose
`fare_amount` is maximal over the whole set. -/
theorem C4_most_expensive_route_max (df : List EnrichedTrip) (h : df ≠ []) :
    ∃ e ∈ df,
      get_most_expensive_route df =
        Except.ok (e.PU_Zone, e.DO_Zone, e.trip.fare_amount) ∧
      ∀ e' ∈ df, e'.trip.fare_amount ≤ e.trip.fare_amount := by
  have hperm : List.Perm
      (orderByDesc (fun e : EnrichedTrip => e.trip.fare_amount) df) df :=
    List.perm_insertionSort _ df
  have hsorted : List.Sorted (descRel fun e : EnrichedTrip => e.trip.fare_amount)
      (orderByDesc (fun e => e.trip.fare_amount) df) :=
    List.sorted_insertionSort _ df
  cases hs : orderByDesc (fun e : EnrichedTrip => e.trip.fare_amount) df with
  | nil =>
    rw [hs] at hperm
    exact absurd (hperm.symm.eq_nil) h
  | cons a t =>
    rw [hs] at hperm hsorted
    refine ⟨a, hperm.mem_iff.mp (List.mem_cons_self a t), ?_, ?_⟩
    · unfold get_most_expensive_route
      rw [hs]
      rfl
    · intro e' he'
      rcases List.mem_cons.mp (hperm.mem_iff.mpr he') with hEq | hmem
      · rw [hEq]
      · exact List.rel_of_sorted_cons hsorted e' hmem

/-- Witness for C4: on the sample set with fares [10, 50, 5] the aggregator
reports the zones of the fare-50 record. -/
theorem C4_most_expensive_route_max_witness :
    (∃ e ∈ wDf,
      get_most_expensive_route wDf =
        Except.ok (e.PU_Zone, e.DO_Zone, e.trip.fare_amount) ∧
      ∀ e' ∈ wDf, e'.trip.fare_amount ≤ e.trip.fare_amount) ∧
    get_most_expensive_route wDf =
      Except.ok (some "B", some "C", (50 : ℚ)) :=
  ⟨C4_most_expensive_route_max wDf (by decide), by rfl⟩

theorem mem_groupByCount {α κ : Type} [DecidableEq κ] (key : α → κ)
    (df : List α) (p : κ × Nat) :
    p ∈ groupByCount key df ↔
      p.1 ∈ df.map key ∧ p.2 = (df.filter (fun a => key a = p.1)).length := by
  unfold groupByCount
  rw [List.mem_map]
  constructor
  · rintro ⟨k, hk, rfl⟩
    exact ⟨List.mem_dedup.mp hk, rfl⟩
  · obtain ⟨k, n⟩ := p
    rintro ⟨h1, h2⟩
    simp only at h1 h2
    exact ⟨k, List.mem_dedup.mpr h1, by rw [h2]⟩

/-- **C5** For every record set, the Top-5 Busiest Pickup Zones aggregator
returns at most 5 rows, ordered so that each row's count is at least the next
row's count, and each returned row is a `PU_Zone` group of the input with its
exact group size. -/
theorem C5_top5_busiest_zones (df : List EnrichedTrip) :
    (get_top_5_busiest_area df).length ≤ 5 ∧
    (get_top_5_busiest_area df).Pairwise (fun a b => b.2 ≤ a.2) ∧
    ∀ p ∈ get_top_5_busiest_area df,
      p.1 ∈ df.map (fun e => e.PU_Zone) ∧
      p.2 = (df.filter (fun e => e.PU_Zone = p.1)).length := by
  have hsorted : List.Sorted (descRel fun p : Option String × Nat => p.2)
      (orderByDesc (fun p : Option String × Nat => p.2)
        (groupByCount (fun e => e.PU_Zone) df)) :=
    List.sorted_insertionSort _ _
  have hperm : List.Perm
      (orderByDesc (fun p : Option String × Nat => p.2)
        (groupByCount (fun e => e.PU_Zone) df))
      (groupByCount (fun e => e.PU_Zone) df) :=
    List.perm_insertionSort _ _
  refine ⟨List.length_take_le _ _, ?_, ?_⟩
  · exact List.Pairwise.sublist (List.take_sublist 5 _) hsorted
  · intro p hp
    have hmem : p ∈ groupByCount (fun e => e.PU_Zone) df :=
      hperm.mem_iff.mp (List.take_subset 5 _ hp)
    exact (mem_groupByCount _ df p).mp hmem

/-- Witness for C5: the zone `A` group of the three-record sample appears with
its exact count 2. -/
theorem C5_top5_busiest_zones_witness :
    ((some "A" : Option String), 2).1 ∈ wDf.map (fun e => e.PU_Zone) ∧
    ((some "A" : Option String), 2).2 =
      (wDf.filter (fun e => e.PU_Zone = ((some "A" : Option String), 2).1)).length :=
  (C5_top5_busiest_zones wDf).2.2 ((some "A" : Option String), 2) (by decide)

theorem groupByCount_snd_sum {α κ : Type} [DecidableEq κ] (key : α → κ)
    (df : List α) :
    ((groupByCount key df).map Prod.snd).sum = df.length := by
  unfold groupByCount
  rw [List.map_map]
  have h : ((df.map key).dedup.map
        (Prod.snd ∘ fun k => (k, (df.filter (fun a => key a = k)).length))) =
      (df.map key).dedup.map fun k => (df.map key).count k := by
    apply List.map_congr_left
    intro k _
    simp only [Function.comp_apply]
    rw [List.count_eq_countP, List.countP_map, ← List.countP_eq_length_filter]
    apply List.countP_congr
    intro a _
    rfl
  rw [h, List.sum_map_count_dedup_eq_length, List.length_map]

theorem hourlyCounts_snd_sum (col : Trip → Option Nat) (df : List EnrichedTrip) :
    ((hourlyCounts col df).map Prod.snd).sum = df.length := by
  unfold hourlyCounts orderByAsc
  rw [((List.perm_insertionSort _ _).map Prod.snd).sum_eq]
  exact groupByCount_snd_sum _ df

theorem hourlyCounts_side (col : Trip → Option Nat) (df : List EnrichedTrip)
    (h : ∀ e ∈ df, col e.trip ≠ none) :
    (∀ p ∈ hourlyCounts col df,
      (∃ hh : Nat, p.1 = some hh ∧ hh ≤ 23) ∧
      p.1 ∈ df.map (fun e => hourOf (col e.trip)) ∧
      p.2 = (df.filter (fun e => hourOf (col e.trip) = p.1)).length) ∧
    (∀ k ∈ df.map (fun e => hourOf (col e.trip)),
      ∃ c, (k, c) ∈ hourlyCounts col df) ∧
    (hourlyCounts col df).Pairwise (fun p q => hourRank p.1 ≤ hourRank q.1) ∧
    ((hourlyCounts col df).map Prod.snd).sum = df.length := by
  have hperm : List.Perm
      (orderByAsc (fun p : Option Nat × Nat => hourRank p.1)
        (groupByCount (fun e => hourOf (col e.trip)) df))
      (groupByCount (fun e => hourOf (col e.trip)) df) :=
    List.perm_insertionSort _ _
  have hsorted : List.Sorted (ascRel fun p : Option Nat × Nat => hourRank p.1)
      (orderByAsc (fun p : Option Nat × Nat => hourRank p.1)
        (groupByCount (fun e => hourOf (col e.trip)) df)) :=
    List.sorted_insertionSort _ _
  refine ⟨?_, ?_, hsorted, hourlyCounts_snd_sum col df⟩
  · intro p hp
    have hmem := (mem_groupByCount _ df p).mp (hperm.mem_iff.mp hp)
    refine ⟨?_, hmem.1, hmem.2⟩
    obtain ⟨e, he, hke⟩ := List.mem_map.mp hmem.1
    obtain ⟨t, ht⟩ := Option.ne_none_iff_exists'.mp (h e he)
    refine ⟨t / 3600 % 24, ?_, ?_⟩
    · rw [← hke, hourOf, ht]
      rfl
    · have := Nat.mod_lt (t / 3600) (show 0 < 24 by norm_num)
      omega
  · intro k hk
    exact ⟨(df.filter (fun e => hourOf (col e.trip) = k)).length,
      hperm.mem_iff.mpr ((mem_groupByCount _ df _).mpr ⟨hk, rfl⟩)⟩

/-- **C6 (amended)** For every cleaned record set whose pickup and dropoff
timestamps are all non-null, each of the two sequences returned by
`get_hourly_pickup_dropoff_counts` is ordered by ascending hour, its hour
keys are exactly the hours present in the data and each lies in [0, 23], and
the sum of the hourly counts of each sequence equals the size of the set.
(The unamended claim fails when a timestamp is null: `hour(NULL)` is `NULL`,
which forms its own group whose key is not an hour in [0, 23].) -/
theorem C6_amended_hourly_counts (pickupCol dropoffCol : Trip → Option Nat)
    (df : List EnrichedTrip)
    (hp : ∀ e ∈ df, pickupCol e.trip ≠ none)
    (hd : ∀ e ∈ df, dropoffCol e.trip ≠ none) :
    ((∀ p ∈ (get_hourly_pickup_dropoff_counts pickupCol dropoffCol df).1,
        (∃ hh : Nat, p.1 = some hh ∧ hh ≤ 23) ∧
        p.1 ∈ df.map (fun e => hourOf (pickupCol e.trip))) ∧
      (∀ k ∈ df.map (fun e => hourOf (pickupCol e.trip)),
        ∃ c, (k, c) ∈ (get_hourly_pickup_dropoff_counts pickupCol dropoffCol df).1) ∧
      ((get_hourly_pickup_dropoff_counts pickupCol dropoffCol df).1.Pairwise
        (fun p q => hourRank p.1 ≤ hourRank q.1)) ∧
      (((get_hourly_pickup_dropoff_counts pickupCol dropoffCol df).1.map
        Prod.snd).sum = df.length)) ∧
    ((∀ p ∈ (get_hourly_pickup_dropoff_counts pickupCol dropoffCol df).2,
        (∃ hh : Nat, p.1 = some hh ∧ hh ≤ 23) ∧
        p.1 ∈ df.map (fun e => hourOf (dropoffCol e.trip))) ∧
      (∀ k ∈ df.map (fun e => hourOf (dropoffCol e.trip)),
        ∃ c, (k, c) ∈ (get_hourly_pickup_dropoff_counts pickupCol dropoffCol df).2) ∧
      ((get_hourly_pickup_dropoff_counts pickupCol dropoffCol df).2.Pairwise
        (fun p q => hourRank p.1 ≤ hourRank q.1)) ∧
      (((get_hourly_pickup_dropoff_counts pickupCol dropoffCol df).2.map
        Prod.snd).sum = df.length)) := by
  obtain ⟨a1, a2, a3, a4⟩ := hourlyCounts_side pickupCol df hp
  obtain ⟨b1, b2, b3, b4⟩ := hourlyCounts_side dropoffCol df hd
  exact ⟨⟨fun p hp' => ⟨(a1 p hp').1, (a1 p hp').2.1⟩, a2, a3, a4⟩,
         ⟨fun p hp' => ⟨(b1 p hp').1, (b1 p hp').2.1⟩, b2, b3, b4⟩⟩

/-- Witness for C6 (amended): on the sample set (all timestamps non-null) the
hourly pickup counts sum to the set's size. -/
theorem C6_amended_hourly_counts_witness :
    ((get_hourly_pickup_dropoff_counts Trip.pickup_datetime
        Trip.dropoff_datetime wDf).1.map Prod.snd).sum = wDf.length :=
  (C6_amended_hourly_counts Trip.pickup_datetime Trip.dropoff_datetime wDf
    (by decide) (by decide)).1.2.2.2

/-- **C6** (corrected claim refuted): a cleaned record with a null pickup
timestamp produces an hourly pickup row whose key is null — not an hour in
[0, 23]. -/
theorem C6_counterexample :
    rowValid wENullTs = true ∧
    clean_data [wENullTs] = [wENullTs] ∧
    (get_hourly_pickup_dropoff_counts Trip.pickup_datetime Trip.dropoff_datetime
        (clean_data [wENullTs])).1 = [(none, 1)] := by
  refine ⟨by decide, by decide, ?_⟩
  rfl

/-- **C10** For every record set in which every pickup and dropoff timestamp
is non-null, the sum of the hourly dropoff counts equals the sum of the
hourly pickup counts, and both equal the size of the set. -/
theorem C10_hourly_sums_agree (pickupCol dropoffCol : Trip → Option Nat)
    (df : List EnrichedTrip)
    (h : ∀ e ∈ df, pickupCol e.trip ≠ none ∧ dropoffCol e.trip ≠ none) :
    (((get_hourly_pickup_dropoff_counts pickupCol dropoffCol df).2.map
        Prod.snd).sum =
      ((get_hourly_pickup_dropoff_counts pickupCol dropoffCol df).1.map
        Prod.snd).sum) ∧
    (((get_hourly_pickup_dropoff_counts pickupCol dropoffCol df).1.map
        Prod.snd).sum = df.length) ∧
    (((get_hourly_pickup_dropoff_counts pickupCol dropoffCol df).2.map
        Prod.snd).sum = df.length) := by
  refine ⟨?_, hourlyCounts_snd_sum pickupCol df, hourlyCounts_snd_sum dropoffCol df⟩
  rw [show (get_hourly_pickup_dropoff_counts pickupCol dropoffCol df).2
      = hourlyCounts dropoffCol df from rfl,
    show (get_hourly_pickup_dropoff_counts pickupCol dropoffCol df).1
      = hourlyCounts pickupCol df from rfl,
    hourlyCounts_snd_sum, hourlyCounts_snd_sum]

/-- Witness for C10: both hourly sums of the sample set equal its size 3. -/
theorem C10_hourly_sums_agree_witness :
    ((get_hourly_pickup_dropoff_counts Trip.pickup_datetime
        Trip.dropoff_datetime wDf).2.map Prod.snd).sum =
      ((get_hourly_pickup_dropoff_counts Trip.pickup_datetime
        Trip.dropoff_datetime wDf).1.map Prod.snd).sum :=
  (C10_hourly_sums_agree Trip.pickup_datetime Trip.dropoff_datetime wDf
    (by decide)).1

theorem list_cauchy_schwarz (l : List (ℝ × ℝ)) :
    ((l.map (fun p => p.1 * p.2)).sum) ^ 2 ≤
      ((l.map (fun p => p.1 * p.1)).sum) * ((l.map (fun p => p.2 * p.2)).sum) := by
  induction l with
  | nil => simp
  | cons x l ih =>
    have hX : (0:ℝ) ≤ (l.map (fun p => p.1 * p.1)).sum :=
      List.sum_nonneg (by
        intro y hy
        obtain ⟨p, _, rfl⟩ := List.mem_map.mp hy
        exact mul_self_nonneg _)
    have hY : (0:ℝ) ≤ (l.map (fun p => p.2 * p.2)).sum :=
      List.sum_nonneg (by
        intro y hy
        obtain ⟨p, _, rfl⟩ := List.mem_map.mp hy
        exact mul_self_nonneg _)
    simp only [List.map_cons, List.sum_cons]
    rcases eq_or_lt_of_le hX with hX0 | hX0
    · have hS2 : ((l.map (fun p => p.1 * p.2)).sum) ^ 2 = 0 := by
        have h2 := ih
        rw [← hX0, zero_mul] at h2
        exact le_antisymm h2 (sq_nonneg _)
      have hS : (l.map (fun p => p.1 * p.2)).sum = 0 :=
        (pow_eq_zero_iff (by norm_num : (2:ℕ) ≠ 0)).mp hS2
      rw [hS, ← hX0]
      nlinarith [mul_nonneg (mul_self_nonneg x.1) hY]
    · nlinarith [ih, hX0, hY,
        sq_nonneg (x.1 * (l.map (fun p => p.1 * p.2)).sum -
          x.2 * (l.map (fun p => p.1 * p.1)).sum),
        mul_nonneg (mul_self_nonneg x.1) (sub_nonneg.mpr ih),
        mul_nonneg hX0.le (sub_nonneg.mpr ih)]

theorem comoment_self_nonneg (f : EnrichedTrip → ℚ) (df : List EnrichedTrip) :
    0 ≤ comoment f f df := by
  unfold comoment
  apply List.sum_nonneg
  intro y hy
  obtain ⟨e, _, rfl⟩ := List.mem_map.mp hy
  exact mul_self_nonneg _

theorem comoment_sq_le (f g : EnrichedTrip → ℚ) (df : List EnrichedTrip) :
    (comoment f g df) ^ 2 ≤ comoment f f df * comoment g g df := by
  have h := list_cauchy_schwarz (df.map (fun e =>
    (((f e : ℚ) : ℝ) - colMean f df, ((g e : ℚ) : ℝ) - colMean g df)))
  simp only [List.map_map, Function.comp] at h
  unfold comoment
  exact h

theorem pearson_self (f : EnrichedTrip → ℚ) (df : List EnrichedTrip)
    (h : comoment f f df ≠ 0) : pearson f f df = some 1 := by
  unfold pearson
  rw [if_neg (by simp [h])]
  congr 1
  rw [Real.mul_self_sqrt (comoment_self_nonneg f df)]
  exact div_self h

theorem pearson_bounds (f g : EnrichedTrip → ℚ) (df : List EnrichedTrip)
    (v : ℝ) (h : pearson f g df = some v) : -1 ≤ v ∧ v ≤ 1 := by
  unfold pearson at h
  by_cases hz : comoment f f df = 0 ∨ comoment g g df = 0
  · rw [if_pos hz] at h
    exact absurd h (by simp)
  · rw [if_neg hz] at h
    push_neg at hz
    have ha : 0 < comoment f f df :=
      lt_of_le_of_ne (comoment_self_nonneg f df) (Ne.symm hz.1)
    have hb : 0 < comoment g g df :=
      lt_of_le_of_ne (comoment_self_nonneg g df) (Ne.symm hz.2)
    have hc : 0 < Real.sqrt (comoment f f df) * Real.sqrt (comoment g g df) :=
      mul_pos (Real.sqrt_pos.mpr ha) (Real.sqrt_pos.mpr hb)
    have hcsq : (Real.sqrt (comoment f f df) * Real.sqrt (comoment g g df)) ^ 2
        = comoment f f df * comoment g g df := by
      rw [mul_pow, Real.sq_sqrt ha.le, Real.sq_sqrt hb.le]
    have hv : v = comoment f g df /
        (Real.sqrt (comoment f f df) * Real.sqrt (comoment g g df)) := by
      injection h with h2
      exact h2.symm
    have hcm : (comoment f g df) ^ 2 ≤
        (Real.sqrt (comoment f f df) * Real.sqrt (comoment g g df)) ^ 2 := by
      rw [hcsq]
      exact comoment_sq_le f g df
    constructor
    · rw [hv, le_div_iff hc]
      nlinarith [hcm, hc,
        sq_nonneg (comoment f g df +
          Real.sqrt (comoment f f df) * Real.sqrt (comoment g g df))]
    · rw [hv, div_le_one hc]
      nlinarith [hcm, hc,
        sq_nonneg (comoment f g df -
          Real.sqrt (comoment f f df) * Real.sqrt (comoment g g df))]

/-- **C9** For every record set, `calculate_tip_correlations` returns a
mapping whose keys are exactly `trip_distance`, `fare_amount`,
`total_amount`, `passenger_count`, each mapped to the Pearson correlation of
that column with `tip_amount`; every defined value lies in [-1, 1]; the
value is undefined (`none`) when either column has zero variance; and the
correlation of a column with itself is exactly 1. -/
theorem C9_tip_correlations (df : List EnrichedTrip) :
    ((calculate_tip_correlations df).map Prod.fst =
      ["trip_distance", "fare_amount", "total_amount", "passenger_count"]) ∧
    (∀ p ∈ calculate_tip_correlations df,
      p.2 = pearson (colVal "tip_amount") (colVal p.1) df) ∧
    (∀ p ∈ calculate_tip_correlations df, ∀ v : ℝ,
      p.2 = some v → -1 ≤ v ∧ v ≤ 1) ∧
    (∀ p ∈ calculate_tip_correlations df,
      comoment (colVal "tip_amount") (colVal "tip_amount") df = 0 ∨
        comoment (colVal p.1) (colVal p.1) df = 0 → p.2 = none) ∧
    (∀ f : EnrichedTrip → ℚ, comoment f f df ≠ 0 → pearson f f df = some 1) := by
  refine ⟨rfl, ?_, ?_, ?_, fun f hf => pearson_self f df hf⟩
  · intro p hp
    obtain ⟨c, _, rfl⟩ := List.mem_map.mp hp
    rfl
  · intro p hp v hv
    obtain ⟨c, _, rfl⟩ := List.mem_map.mp hp
    have h2 : stat_corr "tip_amount" c df = some v := hv
    unfold stat_corr at h2
    exact pearson_bounds _ _ df v h2
  · intro p hp hz
    obtain ⟨c, _, rfl⟩ := List.mem_map.mp hp
    simp only at hz
    show stat_corr "tip_amount" c df = none
    unfold stat_corr pearson
    rw [if_pos hz]

/-- Witness for C9: on the two-record sample with tips 0 and 1, the
`tip_amount` column has nonzero variance and its self-correlation is
exactly 1. -/
theorem C9_tip_correlations_witness :
    pearson (colVal "tip_amount") (colVal "tip_amount") wDf9 = some 1 :=
  (C9_tip_correlations wDf9).2.2.2.2 (colVal "tip_amount") (by
    have h : comoment (colVal "tip_amount") (colVal "tip_amount") wDf9
        = 1 / 2 := by
      simp [comoment, colMean, colVal, wDf9, wE1, wE2]
      norm_num
    rw [h]
    norm_num)
